import Mathlib

/-!
Verification of the LoadData (LoadText) module of CellProfiler
(`pyCellProfiler/cellprofiler/modules/loaddata.py`).

Python strings are embedded as `List Char` (`PyStr`).  The string-conversion
builtins `int(...)` and `float(...)` used by the module are modelled by
`parse_int` and `parse_float` below, following the Python 2 grammar for
base-10 integer strings and for float strings (optional surrounding
whitespace, optional sign, decimal mantissa with optional exponent, and the
special values inf / infinity / nan, case-insensitively).  Float values are
modelled exactly (as rationals plus infinities and nan); binary rounding is
irrelevant to the verified properties.
-/

/-- A Python string, embedded as its list of characters. -/
abbrev PyStr := List Char

/-- Shorthand for turning a Lean string literal into a `PyStr`. -/
def pys (s : String) : PyStr := s.toList

/-- Check that the pattern (first argument) is a prefix of the string (second
argument); recursion is on the pattern, so an empty pattern is accepted
without inspecting the string. -/
def py_prefix_chk : PyStr → PyStr → Bool
  | [], _ => true
  | _ :: _, [] => false
  | q :: qs, c :: cs => c == q && py_prefix_chk qs cs

/-- `s.startswith(p)` for Python strings. -/
def py_startswith (s p : PyStr) : Bool := py_prefix_chk p s

/-- Whitespace characters stripped by Python `str.strip()` (as applied by
`int(...)` and `float(...)` to their string argument). -/
def py_ws (c : Char) : Bool :=
  c == ' ' || c == '\t' || c == '\n' || c == '\x0d' || c == '\x0b' || c == '\x0c'

/-- Strip leading and trailing whitespace, as Python's numeric conversions do. -/
def py_strip (s : PyStr) : PyStr :=
  ((s.dropWhile py_ws).reverse.dropWhile py_ws).reverse

/-- Numeric value of a list of decimal digit characters. -/
def digits_val (l : List Char) : Nat :=
  l.foldl (fun a c => a * 10 + (c.toNat - '0'.toNat)) 0

/-- Python 2 `int(s)` on an already-stripped string: an optional sign followed
by one or more decimal digits. -/
def parse_int_core : List Char → Option Int
  | [] => none
  | '+' :: rest =>
    if rest.isEmpty then none
    else if rest.all Char.isDigit then some (digits_val rest) else none
  | '-' :: rest =>
    if rest.isEmpty then none
    else if rest.all Char.isDigit then some (-(digits_val rest : Int)) else none
  | l => if l.all Char.isDigit then some (digits_val l) else none

/-- The model of Python 2 `int(s)` for a string argument: `none` models a
`ValueError`. -/
def parse_int (s : PyStr) : Option Int := parse_int_core (py_strip s)

/-- The value of a Python float: an exact finite value, a signed infinity, or
nan.  Binary rounding is not modelled; it is irrelevant to the claims. -/
inductive PyFloat where
  | finite (q : ℚ)
  | infinite (neg : Bool)
  | nan
deriving DecidableEq

/-- Exponent part of a float string, after the `e`/`E`: an optional sign and
one or more digits, consuming the whole remainder. -/
def parse_exp : List Char → Option Int
  | [] => none
  | '+' :: rest =>
    if rest.isEmpty then none
    else if rest.all Char.isDigit then some (digits_val rest) else none
  | '-' :: rest =>
    if rest.isEmpty then none
    else if rest.all Char.isDigit then some (-(digits_val rest : Int)) else none
  | l => if l.all Char.isDigit then some (digits_val l) else none

/-- Combine integer part, fraction part and a possible exponent suffix into the
exact rational value of a decimal float string. -/
def mk_mantissa_exp (ip fp : List Char) (rest : List Char) : Option ℚ :=
  let m : ℚ := (digits_val ip : ℚ) + (digits_val fp : ℚ) / (10 : ℚ) ^ fp.length
  match rest with
  | [] => some m
  | 'e' :: t => (parse_exp t).map (fun e => m * (10 : ℚ) ^ e)
  | 'E' :: t => (parse_exp t).map (fun e => m * (10 : ℚ) ^ e)
  | _ => none

/-- An unsigned decimal float string: digits, an optional point with more
digits (at least one digit in total), and an optional exponent. -/
def parse_decimal (s : List Char) : Option ℚ :=
  let ip := s.takeWhile Char.isDigit
  let r1 := s.dropWhile Char.isDigit
  match r1 with
  | '.' :: t =>
    let fp := t.takeWhile Char.isDigit
    let r2 := t.dropWhile Char.isDigit
    if ip.isEmpty && fp.isEmpty then none else mk_mantissa_exp ip fp r2
  | _ => if ip.isEmpty then none else mk_mantissa_exp ip [] r1

/-- Body of a float string after the optional sign. -/
def parse_float_body (s : List Char) (neg : Bool) : Option PyFloat :=
  let low := s.map Char.toLower
  if low == pys "inf" || low == pys "infinity" then some (.infinite neg)
  else if low == pys "nan" then some .nan
  else (parse_decimal s).map (fun q => .finite (if neg then -q else q))

/-- A float string after stripping: an optional sign and a body. -/
def parse_float_core : List Char → Option PyFloat
  | '+' :: rest => parse_float_body rest false
  | '-' :: rest => parse_float_body rest true
  | l => parse_float_body l false

/-- The model of Python 2 `float(s)` for a string argument: `none` models a
`ValueError`. -/
def parse_float (s : PyStr) : Option PyFloat := parse_float_core (py_strip s)

/-- A scalar value as published by the module: a Python int, float, or string
(the three dtypes a loaded column can carry). -/
inductive Value where
  | int (n : ℤ)
  | float (f : PyFloat)
  | str (s : PyStr)
deriving DecidableEq

/-- A homogeneously typed column, mirroring the numpy array produced by
`best_cast` (integer, float, or string dtype). -/
inductive Column where
  | ints (l : List ℤ)
  | floats (l : List PyFloat)
  | strs (l : List PyStr)
deriving DecidableEq

/-- Number of rows in a column. -/
def col_length : Column → Nat
  | .ints l => l.length
  | .floats l => l.length
  | .strs l => l.length

/-- The scalar at row `i` of a column (rows accessed by the module are always
in bounds; a default is supplied to keep the function total). -/
def col_get : Column → Nat → Value
  | .ints l, i => .int (l.getD i 0)
  | .floats l, i => .float (l.getD i .nan)
  | .strs l, i => .str (l.getD i [])

/-- `[f x for x in l]` inside a `try`: the whole comprehension succeeds only if
`f` succeeds on every element; the first failure aborts it. -/
def try_all (f : α → Option β) : List α → Option (List β)
  | [] => some []
  | x :: xs =>
    match f x, try_all f xs with
    | some y, some ys => some (y :: ys)
    | _, _ => none

/-- `best_cast` from loaddata.py: try casting every element to int, then to
float, and fall back to the original strings. -/
def best_cast (sequence : List PyStr) : Column :=
  match try_all parse_int sequence with
  | some is => .ints is
  | none =>
    match try_all parse_float sequence with
    | some fs => .floats fs
    | none => .strs sequence

/-- `header_to_column` from loaddata.py: strip the `Image_` prefix in front of
a `PathName_` or `FileName_` marker (`cpmeas.IMAGE = "Image"`, so the slice
drops `len("Image") + 1 = 6` characters); any other name is returned
unchanged. -/
def header_to_column (field : PyStr) : PyStr :=
  if py_startswith field (pys "Image_PathName_") then field.drop 6
  else if py_startswith field (pys "Image_FileName_") then field.drop 6
  else field

/-- `is_path_name_feature` from loaddata.py. -/
def is_path_name_feature (feature : PyStr) : Bool :=
  py_startswith feature (pys "PathName_")

/-- `is_file_name_feature` from loaddata.py. -/
def is_file_name_feature (feature : PyStr) : Bool :=
  py_startswith feature (pys "FileName_")

/-- `get_image_name` from loaddata.py: drop the `PathName_` or `FileName_`
prefix (both 9 characters); `none` models the `ValueError` raised on any other
name. -/
def get_image_name (feature : PyStr) : Option PyStr :=
  if is_path_name_feature feature then some (feature.drop 9)
  else if is_file_name_feature feature then some (feature.drop 9)
  else none

/-- `make_path_name_feature` from loaddata.py. -/
def make_path_name_feature (image : PyStr) : PyStr := pys "PathName_" ++ image

/-- `make_file_name_feature` from loaddata.py. -/
def make_file_name_feature (image : PyStr) : PyStr := pys "FileName_" ++ image

/-! ## Helper lemmas about `try_all` and `py_startswith` -/

theorem try_all_eq_some_of_forall {f : α → Option β} (d : β) :
    ∀ l : List α, (∀ x ∈ l, (f x).isSome) →
      try_all f l = some (l.map fun x => (f x).getD d) := by
  intro l
  induction l with
  | nil => intro _; rfl
  | cons x xs ih =>
    intro h
    have hx : (f x).isSome := h x (List.mem_cons_self x xs)
    obtain ⟨y, hy⟩ := Option.isSome_iff_exists.mp hx
    have hxs := ih (fun z hz => h z (List.mem_cons_of_mem x hz))
    simp [try_all, hy, hxs, Option.getD]

theorem try_all_eq_none_of_mem {f : α → Option β} {x : α} :
    ∀ {l : List α}, x ∈ l → f x = none → try_all f l = none := by
  intro l
  induction l with
  | nil => intro h; cases h
  | cons z zs ih =>
    intro hmem hnone
    rcases List.mem_cons.mp hmem with h | h
    · subst h; simp [try_all, hnone]
    · have := ih h hnone
      simp only [try_all, this]
      cases f z <;> rfl

theorem py_startswith_iff (p : PyStr) :
    ∀ s : PyStr, py_startswith s p = true ↔ ∃ t, s = p ++ t := by
  induction p with
  | nil =>
    intro s
    constructor
    · intro _; exact ⟨s, rfl⟩
    · intro _; cases s <;> rfl
  | cons c cs ih =>
    intro s
    cases s with
    | nil =>
      simp only [py_startswith, py_prefix_chk]
      constructor
      · intro h; cases h
      · rintro ⟨t, ht⟩; cases ht
    | cons z zs =>
      simp only [py_startswith, py_prefix_chk, Bool.and_eq_true, beq_iff_eq]
      constructor
      · rintro ⟨hz, hs⟩
        obtain ⟨t, ht⟩ := (ih zs).mp hs
        exact ⟨t, by rw [hz, ht]; rfl⟩
      · rintro ⟨t, ht⟩
        rw [List.cons_append] at ht
        injection ht with h1 h2
        exact ⟨h1, (ih zs).mpr ⟨t, h2⟩⟩

/-! ## Claim C1 -/

/-- Claim C1: for every sequence of string cells handed to `best_cast`, if
every cell parses as an integer the result is the integer column of those
values; otherwise, if every cell parses as a float, the result is the float
column of those values (so integer takes priority over float, since the
integer attempt is made first); otherwise — in particular as soon as one
cell is non-numeric — the result is the original string sequence. -/
theorem c1_best_cast_type_inference (sequence : List PyStr) :
    ((∀ x ∈ sequence, (parse_int x).isSome) →
      best_cast sequence = .ints (sequence.map fun x => (parse_int x).getD 0)) ∧
    ((∃ x ∈ sequence, parse_int x = none) →
      (∀ x ∈ sequence, (parse_float x).isSome) →
      best_cast sequence = .floats (sequence.map fun x => (parse_float x).getD .nan)) ∧
    ((∃ x ∈ sequence, parse_int x = none ∧ parse_float x = none) →
      best_cast sequence = .strs sequence) := by
  refine ⟨?_, ?_, ?_⟩
  · intro h
    rw [best_cast, try_all_eq_some_of_forall 0 sequence h]
  · rintro ⟨x, hx, hnone⟩ hfl
    rw [best_cast, try_all_eq_none_of_mem hx hnone,
      try_all_eq_some_of_forall PyFloat.nan sequence hfl]
  · rintro ⟨x, hx, hint, hflt⟩
    rw [best_cast, try_all_eq_none_of_mem hx hint, try_all_eq_none_of_mem hx hflt]

/-- Witness for C1 at concrete input: the all-integer column ["1","2","3"]
is inferred as the integer column [1,2,3]. -/
theorem c1_best_cast_type_inference_witness :
    (∀ x ∈ [pys "1", pys "2", pys "3"], (parse_int x).isSome) ∧
    best_cast [pys "1", pys "2", pys "3"] = .ints [1, 2, 3] :=
  ⟨by decide, (c1_best_cast_type_inference [pys "1", pys "2", pys "3"]).1 (by decide)⟩

/-! ## Claim C8 -/

/-- Claim C8: `header_to_column` is total (a Lean function) and idempotent; it
maps `Image_FileName_X` to `FileName_X` and `Image_PathName_X` to
`PathName_X` for every suffix `X`, and leaves every name with neither
recognized prefix (in particular every `Metadata_` name) unchanged. -/
theorem c8_header_to_column_normalization :
    (∀ s : PyStr, header_to_column (header_to_column s) = header_to_column s) ∧
    (∀ x : PyStr, header_to_column (pys "Image_FileName_" ++ x) = pys "FileName_" ++ x) ∧
    (∀ x : PyStr, header_to_column (pys "Image_PathName_" ++ x) = pys "PathName_" ++ x) ∧
    (∀ s : PyStr, py_startswith s (pys "Image_FileName_") = false →
      py_startswith s (pys "Image_PathName_") = false → header_to_column s = s) := by
  have hfile : ∀ x : PyStr,
      header_to_column (pys "Image_FileName_" ++ x) = pys "FileName_" ++ x :=
    fun _ => rfl
  have hpath : ∀ x : PyStr,
      header_to_column (pys "Image_PathName_" ++ x) = pys "PathName_" ++ x :=
    fun _ => rfl
  have hother : ∀ s : PyStr, py_startswith s (pys "Image_FileName_") = false →
      py_startswith s (pys "Image_PathName_") = false → header_to_column s = s := by
    intro s h1 h2
    rw [header_to_column, h1, h2]
    rfl
  refine ⟨?_, hfile, hpath, hother⟩
  intro s
  by_cases h1 : py_startswith s (pys "Image_PathName_") = true
  · obtain ⟨t, rfl⟩ := (py_startswith_iff _ s).mp h1
    rw [hpath t]
    exact hother _ rfl rfl
  · by_cases h2 : py_startswith s (pys "Image_FileName_") = true
    · obtain ⟨t, rfl⟩ := (py_startswith_iff _ s).mp h2
      rw [hfile t]
      exact hother _ rfl rfl
    · rw [hother s (Bool.not_eq_true _ ▸ h2) (Bool.not_eq_true _ ▸ h1)]
      exact hother s (Bool.not_eq_true _ ▸ h2) (Bool.not_eq_true _ ▸ h1)

/-- Witness for C8 at concrete input: "Metadata_Plate" has neither recognized
prefix and is left unchanged (and normalization is idempotent on it). -/
theorem c8_header_to_column_normalization_witness :
    py_startswith (pys "Metadata_Plate") (pys "Image_FileName_") = false ∧
    py_startswith (pys "Metadata_Plate") (pys "Image_PathName_") = false ∧
    header_to_column (pys "Metadata_Plate") = pys "Metadata_Plate" :=
  ⟨by decide, by decide,
    c8_header_to_column_normalization.2.2.2 (pys "Metadata_Plate") (by decide) (by decide)⟩

/-! ## Claim C9 -/

/-- Claim C9: for every image name `s`, extracting the image name from the
file-name feature or from the path-name feature built from `s` gives back
`s` (`none` would model the ValueError branch, which is not reached). -/
theorem c9_image_name_roundtrip (s : PyStr) :
    get_image_name (make_file_name_feature s) = some s ∧
    get_image_name (make_path_name_feature s) = some s :=
  ⟨rfl, rfl⟩

/-! ## File parsing model

A CSV file as seen by the module's lazy `csv.reader`: either opening the
file or parsing its first line (the header) fails, or the header parses and
the reader then yields data rows one by one.  The row stream itself can fail
midway (Python 2 `csv.Error`, e.g. "line contains NULL byte", or the
field-size-limit error): `rows` holds the rows successfully parsed before
any such failure, and `tail_error` records whether pulling the next row
after them raises a `csv.Error` instead of ending the iteration.  This
granularity matters: `get_header` and the introspection functions read only
the first line, while `get_measurement_columns` and `prepare_run` iterate
the whole stream and hit the mid-stream failure. -/

/-- A data row: the string cells of one line after the header. -/
abbrev Row := List PyStr

deriving instance DecidableEq for Except

/-- A successfully opened file whose header parsed: the raw (unnormalized)
header fields, the data rows parsed so far, and whether iterating past them
raises a `csv.Error` (rather than a clean end of file). -/
structure CsvData where
  raw_header : List PyStr
  rows : List Row
  tail_error : Bool
deriving DecidableEq

/-- The outcome of opening the configured file and reading its header: an
error (open failure or unparsable first line), or the header plus the data
row stream. -/
abbrev CsvSource := Except Unit CsvData

/-- `PATH_PADDING` from loaddata.py: extra space reserved in pathnames for
batch-processing rewrites.  (In `get_measurement_columns` the padded length
is computed into a local that is never read, so the padding has no effect on
the declared types; see `gmc_scan_cell`.) -/
def PATH_PADDING : Nat := 20

/-- A declared column type: `COLTYPE_INTEGER`, `COLTYPE_FLOAT`, or
`COLTYPE_VARCHAR_FORMAT % n`. -/
inductive ColType where
  | integer
  | float
  | varchar (n : Nat)
deriving DecidableEq

/-- Per-column scan state of `get_measurement_columns`: the current entry of
`coltypes` and of `collen`. -/
structure ColSt where
  t : ColType
  len : Nat
deriving DecidableEq

/-- The `collen`/`coltypes` update at the end of the scan-loop body:
`if collen[index] < len(field): collen[index] = len(field);
coltypes[index] = COLTYPE_VARCHAR_FORMAT % len(field)`. -/
def gmc_varchar_step (st : ColSt) (n : Nat) : ColSt :=
  if st.len < n then ⟨.varchar n, n⟩ else st

/-- One iteration of the field loop in `get_measurement_columns` for one cell
of one column.  Mirrors the source exactly: an integer-typed column stays
integer if the cell parses as an int; otherwise it is demoted to float and,
in the same iteration, to a varchar sized by this cell if the float parse
also fails.  Cells that parse successfully `continue`, skipping the length
update.  Note the source computes a padded length `len_field` for cells
whose value starts with "PathName" but never reads it afterwards (dead
local), so no padding appears here. -/
def gmc_scan_cell (st : ColSt) (field : PyStr) : ColSt :=
  let n := field.length
  match st.t with
  | .integer =>
    if (parse_int field).isSome then st
    else if (parse_float field).isSome then ⟨.float, st.len⟩
    else gmc_varchar_step ⟨.varchar n, st.len⟩ n
  | .float =>
    if (parse_float field).isSome then st
    else gmc_varchar_step ⟨.varchar n, st.len⟩ n
  | .varchar _ => gmc_varchar_step st n

/-- `other_providers('imagegroup')` from loaddata.py: with image loading
enabled, the image names of the file-name features of the normalized header;
empty on any parse failure and when image loading is off. -/
def other_providers (wants_images : Bool) (src : CsvSource) : List PyStr :=
  if wants_images then
    match src with
    | .error _ => []
    | .ok data =>
      ((data.raw_header.map header_to_column).filter is_file_name_feature).map
        (fun f => (get_image_name f).getD [])
  else []

/-- `get_measurement_columns` from loaddata.py.  Only the cache access, the
file open and the header read sit inside the `try/except` (returning `[]`
on failure, modelled by the `.error` source); the `for row in reader` scan
loop lies outside it, so an exception raised while iterating the data rows
propagates uncaught, modelled by an `.error` result.  Two such exceptions
exist: a row with more fields than the header makes `coltypes[index]` raise
an `IndexError` (fields of over-long rows are reached because the loop zips
the row with `range(len(row))`), and a mid-stream `csv.Error` is raised by
the reader after the parsed rows are exhausted.  A short row only updates
its first columns (the zip truncates), which `r.get? i` reproduces.
Otherwise every cell goes through `gmc_scan_cell` (the source walks rows and
updates the per-index state; this is the same computation column by column)
and the result is one `(IMAGE, name, coltype)` triple per header field plus
one 32-wide varchar `MD5Digest_` column per image name. -/
def get_measurement_columns (wants_images : Bool) (src : CsvSource) :
    Except Unit (List (PyStr × PyStr × ColType)) :=
  match src with
  | .error _ => .ok []
  | .ok data =>
    let header := data.raw_header.map header_to_column
    if data.rows.any (fun r => header.length < r.length) then .error ()
    else if data.tail_error then .error ()
    else
      let coltypes := (List.range header.length).map
        (fun i =>
          ((data.rows.filterMap (fun r => r.get? i)).foldl gmc_scan_cell ⟨.integer, 0⟩).t)
      .ok ((header.zip coltypes).map (fun p => (pys "Image", p.1, p.2)) ++
        (other_providers wants_images src).map
          (fun image_name => (pys "Image", pys "MD5Digest_" ++ image_name, ColType.varchar 32)))

/-- Python `s.split(c)`. -/
def py_split (c : Char) : PyStr → List PyStr
  | [] => [[]]
  | x :: xs =>
    let r := py_split c xs
    if x == c then [] :: r
    else
      match r with
      | h :: t => (x :: h) :: t
      | [] => [[x]]

/-- Python `c.join(l)`. -/
def py_join (c : Char) (l : List PyStr) : PyStr := (l.intersperse [c]).flatten

/-- `get_categories` from loaddata.py: for the IMAGE object, the first
underscore-delimited segment of every normalized header field; empty for any
other object and on any header-read failure.  The function only calls
`get_header`, which reads the first line — the data-row stream (and any
failure in it) is never touched. -/
def get_categories (src : CsvSource) (object_name : PyStr) : List PyStr :=
  if object_name ≠ pys "Image" then []
  else
    match src with
    | .error _ => []
    | .ok data =>
      (data.raw_header.map header_to_column).map (fun x => (py_split '_' x).headD [])

/-- `get_measurements` from loaddata.py: for the IMAGE object, the suffixes
(after the first underscore) of the normalized header fields whose first
segment equals the requested category; empty otherwise and on any
header-read failure.  Like `get_categories`, it reads only the header. -/
def get_measurements (src : CsvSource) (object_name category : PyStr) : List PyStr :=
  if object_name ≠ pys "Image" then []
  else
    match src with
    | .error _ => []
    | .ok data =>
      (((data.raw_header.map header_to_column).filter
          (fun x => (py_split '_' x).headD [] == category)).map
        (fun x => py_join '_' ((py_split '_' x).drop 1)))

/-! ## prepare_run -/

/-- The module settings relevant to `prepare_run` and
`get_measurement_columns` (batch mode is excluded: all verified claims are
about the non-batch path, which is the branch modelled here). -/
structure Config where
  wants_images : Bool
  wants_rows : Bool
  row_min : Nat
  row_max : Nat
  csv_file_name : PyStr
deriving DecidableEq

/-- The exceptions `prepare_run` can raise.  `rowSizeRange` is the ValueError
of the row-range reading loop ("Row # %d has the wrong number of elements:
%d. Expected %d" — note: no row content, and the number is the loop
counter); `rowSizeMain` is the ValueError of the whole-table check ("Error
on line %d of %s. \"%s\" %d rows found, expected %d" — the 1-based file
line `i+2`, the file name, the comma-joined row, and the two counts);
`missingFileName` names the image of a path-name column that has no
file-name column; `stopIteration` models `reader.next()` running off the end
of the file while skipping; `csvError` models a `csv.Error` raised by the
reader while iterating data rows; `parseError` models a failure to
open/parse the file at all. -/
inductive LoadErr where
  | parseError
  | stopIteration
  | csvError
  | rowSizeRange (counter found expected : Nat)
  | rowSizeMain (line : Nat) (file_name content : PyStr) (found expected : Nat)
  | missingFileName (image : PyStr)
deriving DecidableEq

/-- Python `','.join(row)`. -/
def join_comma (row : Row) : PyStr := py_join ',' row

/-- The reading loop of the `wants_rows` branch of `prepare_run`: check each
row's width against the header, collect it, and stop after the row at which
the counter `i` equals `row_range.max - 1`.  The reader is lazy, so a
mid-stream `csv.Error` (`tail_err`) is only raised if the loop exhausts the
parsed rows without breaking first. -/
def range_loop (rmax hlen : Nat) (tail_err : Bool) :
    Nat → List Row → List Row → Except LoadErr (List Row)
  | _, acc, [] => if tail_err then .error .csvError else .ok acc.reverse
  | i, acc, row :: rest =>
    if row.length ≠ hlen then .error (.rowSizeRange i row.length hlen)
    else if i = rmax - 1 then .ok (row :: acc).reverse
    else range_loop rmax hlen tail_err (i + 1) (row :: acc) rest

/-- Reading the data rows in `prepare_run`.  With `wants_rows` the source
skips `row_range.min - 1` rows (`reader.next()`; a call past the parsed
rows raises the mid-stream `csv.Error` if one is pending, else
StopIteration) and then runs the collection loop; the loop counter is
initialized by `i = 0; for i in range(n_to_skip): ...; i += 1`, which leaves
`i = 1` when `n_to_skip = 0` and `i = n_to_skip` otherwise.  Without
`wants_rows`, `rows = [row for row in reader]` reads the whole stream and
raises the pending `csv.Error` if there is one. -/
def read_rows (cfg : Config) (hlen : Nat) (data_rows : List Row) (tail_err : Bool) :
    Except LoadErr (List Row) :=
  if cfg.wants_rows then
    let n_to_skip := cfg.row_min - 1
    if data_rows.length < n_to_skip then
      .error (if tail_err then .csvError else .stopIteration)
    else range_loop cfg.row_max hlen tail_err (if n_to_skip = 0 then 1 else n_to_skip) []
      (data_rows.drop n_to_skip)
  else if tail_err then .error .csvError else .ok data_rows

/-- The width check over the collected rows in `prepare_run`: the first row
whose width differs from the header raises the full-report ValueError with
the 1-based file line number `i + 2` (line 1 is the header), the file name,
the comma-joined row and the found/expected counts. -/
def check_row_sizes (file_name : PyStr) (hlen : Nat) : Nat → List Row → Except LoadErr Unit
  | _, [] => .ok ()
  | i, row :: rest =>
    if row.length ≠ hlen then
      .error (.rowSizeMain (i + 2) file_name (join_comma row) row.length hlen)
    else check_row_sizes file_name hlen (i + 1) rest

/-- The file-name/path-name columns collected for one image name. -/
structure ImageCols where
  file : Option (List PyStr)
  path : Option (List PyStr)
deriving DecidableEq

/-- Update (or insert) the binding of `k` in an association list, mirroring
assignment into a Python dict. -/
def assoc_set [BEq α] (l : List (α × β)) (k : α) (v : β) : List (α × β) :=
  if l.any (fun e => e.1 == k) then l.map (fun e => if e.1 == k then (k, v) else e)
  else l ++ [(k, v)]

/-- Look up a key in an association list (a Python dict read). -/
def assoc_get [BEq α] (l : List (α × β)) (k : α) : Option β :=
  (l.find? (fun e => e.1 == k)).map (fun e => e.2)

/-- The cells of column `i`, one per row (`[row[i] for row in rows]`; all rows
have been width-checked when this is evaluated). -/
def column_at (rows : List Row) (i : Nat) : List PyStr :=
  rows.map (fun r => r.getD i [])

/-- The column-routing loop of `prepare_run`: for each header field in order,
route the column into the measurement dictionary, the metadata sub-dict
(keyed by the name with the 9-character `Metadata_` prefix stripped), and
the per-image file-name/path-name table.  File-name/path-name columns are
routed only when image loading is enabled; they stay string-typed, while
metadata and generic columns go through `best_cast`. -/
def route_columns (wants_images : Bool) (header : List PyStr) (rows : List Row) :
    List (PyStr × Column) × List (PyStr × Column) × List (PyStr × ImageCols) :=
  (List.range header.length).foldl
    (fun acc i =>
      let h := header.getD i []
      let col := column_at rows i
      if py_startswith h (pys "Metadata_") then
        let c := best_cast col
        (assoc_set acc.1 h c, assoc_set acc.2.1 (h.drop 9) c, acc.2.2)
      else if wants_images && is_file_name_feature h then
        let image := (get_image_name h).getD []
        let entry := (assoc_get acc.2.2 image).getD ⟨none, none⟩
        (assoc_set acc.1 h (.strs col), acc.2.1,
          assoc_set acc.2.2 image ⟨some col, entry.path⟩)
      else if wants_images && is_path_name_feature h then
        let image := (get_image_name h).getD []
        let entry := (assoc_get acc.2.2 image).getD ⟨none, none⟩
        (assoc_set acc.1 h (.strs col), acc.2.1,
          assoc_set acc.2.2 image ⟨entry.file, some col⟩)
      else (assoc_set acc.1 h (best_cast col), acc.2.1, acc.2.2))
    ([], [], [])

/-- The validation loop after routing: an image with a path-name column but no
file-name column.  (The source iterates an unordered Python dict; this model
reports the first offender in first-appearance order, which is immaterial to
the claims, stated up to which offender is named.) -/
def first_missing_file (images : List (PyStr × ImageCols)) : Option PyStr :=
  (images.find? (fun e => e.2.file.isNone)).map (fun e => e.1)

/-- `use_key = (image_set_list.associating_by_key != False)`: the attribute
may be `None` (modelled as `none`), which also counts as key-association
mode. -/
def use_key_of : Option Bool → Bool
  | some false => false
  | _ => true

/-- A unit-of-work registration issued by `prepare_run`: `get_image_set` is
called either with a composite metadata key or with the 0-based row
ordinal. -/
inductive UnitReq where
  | byKey (key : List (PyStr × Value))
  | byOrdinal (i : Nat)
deriving DecidableEq

/-- The image-set-population loop of `prepare_run`: one `get_image_set` call
per loaded row, with the composite key built from every metadata column's
value at that row (converted from the numpy scalar to a Python int, float or
string — in this model `col_get` already yields that value) if there is at
least one metadata column and the list associates by key, else with the
ordinal `i`. -/
def mk_registrations (metadata : List (PyStr × Column)) (use_key : Bool) (n : Nat) :
    List UnitReq :=
  (List.range n).map (fun i =>
    if !metadata.isEmpty && use_key then
      .byKey (metadata.map (fun e => (e.1, col_get e.2 i)))
    else .byOrdinal i)

/-- The outcome of a successful `prepare_run`: the hidden measurement
dictionary, the metadata sub-dictionary, and the sequence of image-set
requests issued to the image set list. -/
structure PrepResult where
  dictionary : List (PyStr × Column)
  metadata : List (PyStr × Column)
  registrations : List UnitReq
deriving DecidableEq

/-- `prepare_run` from loaddata.py (non-batch path): open and parse the file,
normalize the header, read the (possibly range-restricted) rows, check all
row widths, route the columns, validate that every path-name column has a
file-name column, and register one image set per row. -/
def prepare_run (cfg : Config) (associating_by_key : Option Bool) (src : CsvSource) :
    Except LoadErr PrepResult :=
  match src with
  | .error _ => .error .parseError
  | .ok data =>
    let header := data.raw_header.map header_to_column
    match read_rows cfg header.length data.rows data.tail_error with
    | .error e => .error e
    | .ok rows =>
      match check_row_sizes cfg.csv_file_name header.length 0 rows with
      | .error e => .error e
      | .ok _ =>
        let routed := route_columns cfg.wants_images header rows
        match first_missing_file routed.2.2 with
        | some image => .error (.missingFileName image)
        | none =>
          .ok ⟨routed.1, routed.2.1,
            mk_registrations routed.2.1 (use_key_of associating_by_key) rows.length⟩

/-! ## run (per-unit publisher) -/

/-- Python `==` on two float values: finite values compare by value, equal
infinities are equal, and nan is unequal to everything, itself included. -/
def float_eq : PyFloat → PyFloat → Bool
  | .finite p, .finite q => p == q
  | .infinite a, .infinite b => a == b
  | _, _ => false

/-- Python `==` between a cell of a loaded column and an image-set key value:
numbers compare by value across int/float, strings by content, and
number-to-string comparisons are unequal. -/
def py_eq : Value → Value → Bool
  | .int a, .int b => a == b
  | .int a, .float f => float_eq (.finite (a : ℚ)) f
  | .float f, .int b => float_eq f (.finite (b : ℚ))
  | .float f, .float g => float_eq f g
  | .str s, .str t => s == t
  | _, _ => false

/-- The inner key loop of `run` at row `index`: look up `Metadata_<key>` in
the dictionary (a missing column is a KeyError, modelled `none`) and compare
the cell with the key's value; the first mismatch stops with `false`, and
`true` means every key matched. -/
def row_matches (dictionary : List (PyStr × Column)) :
    List (PyStr × Value) → Nat → Option Bool
  | [], _ => some true
  | (k, v) :: rest, index =>
    match assoc_get dictionary (pys "Metadata_" ++ k) with
    | none => none
    | some column =>
      if py_eq (col_get column index) v then row_matches dictionary rest index
      else some false

/-- The row scan of `run` from position `i` (invariant `i < n`): stop at the
first fully matching row; when the loop runs off the end, the loop variable
is left at the last row `n - 1`. -/
def scan_go (dictionary : List (PyStr × Column)) (keys : List (PyStr × Value)) (n : Nat) :
    Nat → Option Nat
  | i =>
    match row_matches dictionary keys i with
    | none => none
    | some true => some i
    | some false => if i + 1 < n then scan_go dictionary keys n (i + 1) else some i
termination_by i => n - i
decreasing_by simp_wf; omega

/-- `for index in range(n): ...` of `run`: with `n = 0` the loop body never
runs and `index` stays unbound (a NameError at the later read, modelled
`none`); otherwise the scan starts at row 0. -/
def scan_index (dictionary : List (PyStr × Column)) (keys : List (PyStr × Value)) (n : Nat) :
    Option Nat :=
  if n = 0 then none else scan_go dictionary keys n 0

/-- `run` from loaddata.py: resolve the row for the current image set — by
scanning the metadata columns when the image set carries more than a bare
`number` key, else by `image_set_number - 1` — and publish every dictionary
column's value at that row as a named image measurement.  `none` models an
uncaught exception (empty key set, empty dictionary, or a missing metadata
column). -/
def run_publish (keys : List (PyStr × Value)) (image_set_number : Nat)
    (dictionary : List (PyStr × Column)) : Option (List (PyStr × Value)) :=
  match keys with
  | [] => none
  | (k0, v0) :: rest =>
    let idx : Option Nat :=
      if 1 < rest.length + 1 ∨ k0 ≠ pys "number" then
        match dictionary with
        | [] => none
        | (_, c0) :: _ => scan_index dictionary ((k0, v0) :: rest) (col_length c0)
      else some (image_set_number - 1)
    match idx with
    | none => none
    | some index => some (dictionary.map (fun fc => (fc.1, col_get fc.2 index)))

/-! ## Helper lemmas about prepare_run and the run scan -/

theorem check_row_sizes_ok (name : PyStr) (hlen : Nat) :
    ∀ (rows : List Row) (c : Nat), (∀ r ∈ rows, r.length = hlen) →
      check_row_sizes name hlen c rows = .ok () := by
  intro rows
  induction rows with
  | nil => intro c _; rfl
  | cons r rest ih =>
    intro c h
    have hr : r.length = hlen := h r (List.mem_cons_self r rest)
    unfold check_row_sizes
    rw [if_neg (by omega)]
    exact ih (c + 1) (fun x hx => h x (List.mem_cons_of_mem r hx))

theorem check_row_sizes_err (name : PyStr) (hlen : Nat) :
    ∀ (rows : List Row) (j : Nat) (row : Row) (c : Nat),
      rows.get? j = some row → row.length ≠ hlen →
      (∀ k, k < j → (rows.getD k []).length = hlen) →
      check_row_sizes name hlen c rows =
        .error (.rowSizeMain (c + j + 2) name (join_comma row) row.length hlen) := by
  intro rows
  induction rows with
  | nil => intro j row c hj; simp at hj
  | cons r rest ih =>
    intro j row c hj hbad hgood
    cases j with
    | zero =>
      have hr : r = row := by simpa using hj
      subst hr
      unfold check_row_sizes
      rw [if_pos hbad]
    | succ j' =>
      have hr : r.length = hlen := hgood 0 (Nat.succ_pos j')
      have hj' : rest.get? j' = some row := hj
      have hgood' : ∀ k, k < j' → (rest.getD k []).length = hlen := by
        intro k hk
        exact hgood (k + 1) (by omega)
      unfold check_row_sizes
      rw [if_neg (by omega)]
      have harith : c + 1 + j' + 2 = c + (j' + 1) + 2 := by omega
      rw [← harith]
      exact ih j' row (c + 1) hj' hbad hgood'

theorem scan_go_no_match (dictionary : List (PyStr × Column)) (keys : List (PyStr × Value))
    (n : Nat)
    (hall : ∀ j, j < n → row_matches dictionary keys j = some false) :
    ∀ i, i < n → scan_go dictionary keys n i = some (n - 1) := by
  suffices h : ∀ m i, i < n → n - i ≤ m + 1 → scan_go dictionary keys n i = some (n - 1) by
    intro i hi
    exact h (n - i) i hi (by omega)
  intro m
  induction m with
  | zero =>
    intro i hi hle
    rw [scan_go, hall i hi]
    rw [if_neg (by omega)]
    have : i = n - 1 := by omega
    rw [this]
  | succ m ih =>
    intro i hi hle
    rw [scan_go, hall i hi]
    by_cases hlt : i + 1 < n
    · rw [if_pos hlt]
      exact ih (i + 1) hlt (by omega)
    · rw [if_neg hlt]
      have : i = n - 1 := by omega
      rw [this]

/-! ## Claim C2 -/

/-- Claim C2 (code bug): with the row-range restriction on, a range with
`min = 2`, `max = 3` on a five-row file does load exactly rows 2 and 3, but
the loop counter is mis-initialized to 1 when `min = 1` (after skipping zero
rows), so the range `(1,2)` loads only row 1 instead of rows 1 and 2, and
the range `(1,1)` never satisfies the stop test `i == max - 1` and loads all
five rows instead of row 1 alone — contradicting the claim and the
setting's own help text ("LoadText will process up to and including the end
row"). -/
theorem c2_row_range_eval :
    read_rows ⟨false, true, 2, 3, pys "f.csv"⟩ 1
        [[pys "r1"], [pys "r2"], [pys "r3"], [pys "r4"], [pys "r5"]] false =
      .ok [[pys "r2"], [pys "r3"]] ∧
    read_rows ⟨false, true, 1, 2, pys "f.csv"⟩ 1
        [[pys "r1"], [pys "r2"], [pys "r3"], [pys "r4"], [pys "r5"]] false =
      .ok [[pys "r1"]] ∧
    read_rows ⟨false, true, 1, 1, pys "f.csv"⟩ 1
        [[pys "r1"], [pys "r2"], [pys "r3"], [pys "r4"], [pys "r5"]] false =
      .ok [[pys "r1"], [pys "r2"], [pys "r3"], [pys "r4"], [pys "r5"]] :=
  ⟨by decide, by decide, by decide⟩

/-! ## Claim C3 -/

/-- Counterexample to claim C3 as stated: with the row-range restriction on
(min = 2, max = 3) and a two-field header, a one-field row at data row 2
(file line 3) aborts the load with the range-loop error, which carries only
the loop counter (1 — neither the 1-based data row 2 nor the file line 3)
and the two field counts, and no raw row content: the load does not produce
the full report the claim promises, under either numbering of "1-based line
number". -/
theorem c3_range_error_counterexample :
    prepare_run ⟨false, true, 2, 3, pys "f.csv"⟩ (some true)
        (.ok ⟨[pys "A", pys "B"],
          [[pys "a1", pys "a2"], [pys "b1"], [pys "c1", pys "c2"]], false⟩) =
      .error (.rowSizeRange 1 1 2) ∧
    prepare_run ⟨false, true, 2, 3, pys "f.csv"⟩ (some true)
        (.ok ⟨[pys "A", pys "B"],
          [[pys "a1", pys "a2"], [pys "b1"], [pys "c1", pys "c2"]], false⟩) ≠
      .error (.rowSizeMain 3 (pys "f.csv") (pys "b1") 1 2) ∧
    prepare_run ⟨false, true, 2, 3, pys "f.csv"⟩ (some true)
        (.ok ⟨[pys "A", pys "B"],
          [[pys "a1", pys "a2"], [pys "b1"], [pys "c1", pys "c2"]], false⟩) ≠
      .error (.rowSizeMain 2 (pys "f.csv") (pys "b1") 1 2) :=
  ⟨by decide, by decide, by decide⟩

/-- Claim C3 (amended): when the row-range restriction is disabled, a
non-batch `prepare_run` on a file whose data row `j` (0-based; every earlier
row being well-formed) has a field count different from the header's fails
with the full-report error carrying the 1-based file line number `j + 2`
(the header is line 1), the file name, the raw comma-joined row content, and
the found and expected field counts; the run does not proceed.  (With the
restriction enabled, an in-range malformed row still aborts the run, but
with the reduced counter-only error exhibited by the counterexample.) -/
theorem c3_row_size_error (cfg : Config) (assoc : Option Bool) (raw_header : List PyStr)
    (rows : List Row) (j : Nat) (row : Row)
    (hwr : cfg.wants_rows = false)
    (hgood : ∀ k, k < j → (rows.getD k []).length = raw_header.length)
    (hj : rows.get? j = some row)
    (hbad : row.length ≠ raw_header.length) :
    prepare_run cfg assoc (.ok ⟨raw_header, rows, false⟩) =
      .error (.rowSizeMain (j + 2) cfg.csv_file_name (join_comma row) row.length
        raw_header.length) := by
  unfold prepare_run read_rows
  dsimp only
  rw [hwr]
  simp only [Bool.false_eq_true, if_false, List.length_map]
  rw [check_row_sizes_err cfg.csv_file_name raw_header.length rows j row 0 hj hbad hgood]
  simp only [Nat.zero_add]

/-- Witness for C3 at concrete input: a two-field header with a one-field
second data row makes the amended full-report error fire on file line 3
(data index 1 plus 2). -/
theorem c3_row_size_error_witness :
    (∀ k, k < 1 →
      (([[pys "a1", pys "a2"], [pys "b1"]] : List Row).getD k []).length =
        ([pys "A", pys "B"] : List PyStr).length) ∧
    prepare_run ⟨false, false, 1, 100000, pys "f.csv"⟩ (some true)
        (.ok ⟨[pys "A", pys "B"], [[pys "a1", pys "a2"], [pys "b1"]], false⟩) =
      .error (.rowSizeMain 3 (pys "f.csv") (pys "b1") 1 2) :=
  ⟨by decide,
    c3_row_size_error ⟨false, false, 1, 100000, pys "f.csv"⟩ (some true)
      [pys "A", pys "B"] [[pys "a1", pys "a2"], [pys "b1"]] 1 [pys "b1"]
      rfl (by decide) (by decide) (by decide)⟩

/-! ## Claim C4 -/

/-- Counterexample to claim C4 as stated: with image loading disabled
(`wants_images = false`, a setting the claim does not restrict), a header
consisting of just `Image_PathName_DAPI` — a path-name column with no
file-name column — loads successfully: the column is routed as generic data
and no validation error is raised. -/
theorem c4_no_images_counterexample :
    prepare_run ⟨false, false, 1, 100000, pys "f.csv"⟩ (some true)
        (.ok ⟨[pys "Image_PathName_DAPI"], [[pys "p"]], false⟩) =
      .ok ⟨[(pys "PathName_DAPI", .strs [pys "p"])], [], [.byOrdinal 0]⟩ :=
  by decide

/-- Claim C4 (amended): when image loading is enabled (`wants_images`), a
well-formed file whose routed image table has some image with a path-name
column but no file-name column makes `prepare_run` fail with the fatal error
naming that image. -/
theorem c4_missing_file_name (cfg : Config) (assoc : Option Bool) (raw_header : List PyStr)
    (rows : List Row) (image : PyStr)
    (hwi : cfg.wants_images = true) (hwr : cfg.wants_rows = false)
    (hrows : ∀ r ∈ rows, r.length = raw_header.length)
    (hmiss : first_missing_file
        (route_columns true (raw_header.map header_to_column) rows).2.2 = some image) :
    prepare_run cfg assoc (.ok ⟨raw_header, rows, false⟩) = .error (.missingFileName image) := by
  unfold prepare_run read_rows
  dsimp only
  rw [hwr, hwi]
  simp only [Bool.false_eq_true, if_false, List.length_map]
  rw [check_row_sizes_ok cfg.csv_file_name raw_header.length rows 0 hrows, hmiss]

/-- Witness for C4 at concrete input: a lone `Image_PathName_DAPI` column
with image loading enabled fails naming "DAPI". -/
theorem c4_missing_file_name_witness :
    (∀ r ∈ ([[pys "p"]] : List Row),
      r.length = ([pys "Image_PathName_DAPI"] : List PyStr).length) ∧
    first_missing_file
        (route_columns true (([pys "Image_PathName_DAPI"] : List PyStr).map header_to_column)
          [[pys "p"]]).2.2 = some (pys "DAPI") ∧
    prepare_run ⟨true, false, 1, 100000, pys "f.csv"⟩ (some true)
        (.ok ⟨[pys "Image_PathName_DAPI"], [[pys "p"]], false⟩) =
      .error (.missingFileName (pys "DAPI")) :=
  ⟨by decide, by decide,
    c4_missing_file_name ⟨true, false, 1, 100000, pys "f.csv"⟩ (some true)
      [pys "Image_PathName_DAPI"] [[pys "p"]] (pys "DAPI") rfl rfl (by decide) (by decide)⟩

/-! ## Claim C5 -/

/-- Claim C5: every successful non-batch `prepare_run` issues exactly one
image-set request per loaded row; request `i` carries the composite key
mapping each stripped metadata name to that metadata column's type-inferred
value at row `i` when at least one `Metadata_` column exists and the image
set list associates by key, and carries the bare 0-based ordinal `i`
otherwise. -/
theorem c5_unit_registrations (cfg : Config) (assoc : Option Bool) (raw_header : List PyStr)
    (data_rows : List Row) (tail_err : Bool) (loaded : List Row) (r : PrepResult)
    (hread : read_rows cfg (raw_header.map header_to_column).length data_rows tail_err =
      .ok loaded)
    (hok : prepare_run cfg assoc (.ok ⟨raw_header, data_rows, tail_err⟩) = .ok r) :
    r.registrations.length = loaded.length ∧
    ∀ i, i < loaded.length →
      r.registrations.get? i = some
        (if !r.metadata.isEmpty && use_key_of assoc then
          UnitReq.byKey (r.metadata.map (fun e => (e.1, col_get e.2 i)))
        else UnitReq.byOrdinal i) := by
  unfold prepare_run at hok
  dsimp only at hok
  rw [hread] at hok
  dsimp only at hok
  cases hc : check_row_sizes cfg.csv_file_name
      (raw_header.map header_to_column).length 0 loaded with
  | error e => rw [hc] at hok; exact absurd hok (by simp)
  | ok u =>
    cases u
    rw [hc] at hok
    dsimp only at hok
    cases hm : first_missing_file
        (route_columns cfg.wants_images (raw_header.map header_to_column) loaded).2.2 with
    | some image => rw [hm] at hok; exact absurd hok (by simp)
    | none =>
      rw [hm] at hok
      dsimp only at hok
      injection hok with hok
      subst hok
      refine ⟨by simp [mk_registrations], ?_⟩
      intro i hi
      simp [mk_registrations, List.getElem?_map, List.getElem?_range hi]

/-- A concrete loaded table for the C5 witness: one `Metadata_Plate` column
with rows "P1", "P2" in key-association mode. -/
def c5_example_result : PrepResult :=
  ⟨[(pys "Metadata_Plate", .strs [pys "P1", pys "P2"])],
   [(pys "Plate", .strs [pys "P1", pys "P2"])],
   [.byKey [(pys "Plate", .str (pys "P1"))], .byKey [(pys "Plate", .str (pys "P2"))]]⟩

/-- Witness for C5 at concrete input: the "Metadata_Plate" file with rows
"P1","P2" registers two units keyed `Plate ↦ "P1"` and `Plate ↦ "P2"`. -/
theorem c5_unit_registrations_witness :
    read_rows ⟨false, false, 1, 100000, pys "f.csv"⟩
        (([pys "Metadata_Plate"] : List PyStr).map header_to_column).length
        [[pys "P1"], [pys "P2"]] false = .ok [[pys "P1"], [pys "P2"]] ∧
    prepare_run ⟨false, false, 1, 100000, pys "f.csv"⟩ (some true)
        (.ok ⟨[pys "Metadata_Plate"], [[pys "P1"], [pys "P2"]], false⟩) =
      .ok c5_example_result ∧
    (c5_example_result.registrations.length = ([[pys "P1"], [pys "P2"]] : List Row).length ∧
    ∀ i, i < ([[pys "P1"], [pys "P2"]] : List Row).length →
      c5_example_result.registrations.get? i = some
        (if !c5_example_result.metadata.isEmpty && use_key_of (some true) then
          UnitReq.byKey (c5_example_result.metadata.map (fun e => (e.1, col_get e.2 i)))
        else UnitReq.byOrdinal i)) :=
  ⟨by decide, by decide,
    c5_unit_registrations ⟨false, false, 1, 100000, pys "f.csv"⟩ (some true)
      [pys "Metadata_Plate"] [[pys "P1"], [pys "P2"]] false [[pys "P1"], [pys "P2"]]
      c5_example_result (by decide) (by decide)⟩

/-! ## Claim C6 -/

/-- Claim C6 (code bug): the integer half of the claim holds — a column of
all-integer strings is declared `COLTYPE_INTEGER` regardless of string
length (third conjunct) — but the string half does not: the padded length
for path-name data is computed into a local the source never reads, so a
`PathName_DAPI` column whose cell is "/tmp" is declared `VARCHAR(4)` with no
`PATH_PADDING` widening (first conjunct; the padding test even inspects the
cell value rather than the column name); and cells that parse as numbers
before the demoting cell are skipped by `continue`, so a column
["12345","abc"] is declared `VARCHAR(3)` although its longest observed
value has length 5 (second conjunct). -/
theorem c6_no_padding_eval :
    get_measurement_columns true (.ok ⟨[pys "Image_PathName_DAPI"], [[pys "/tmp"]], false⟩) =
      .ok [(pys "Image", pys "PathName_DAPI", ColType.varchar 4)] ∧
    get_measurement_columns false (.ok ⟨[pys "A"], [[pys "12345"], [pys "abc"]], false⟩) =
      .ok [(pys "Image", pys "A", ColType.varchar 3)] ∧
    get_measurement_columns false (.ok ⟨[pys "A"], [[pys "12345"], [pys "00007"]], false⟩) =
      .ok [(pys "Image", pys "A", ColType.integer)] :=
  ⟨by decide, by decide, by decide⟩

/-! ## Claim C7 -/

/-- Counterexample to claim C7 as stated: a file whose header parses but
whose data-row iteration raises a `csv.Error` (for instance a NUL byte on a
data line) is an input on which parsing the file fails, yet
`get_measurement_columns` does not return an empty list: its row-scan loop
(`for row in reader`) lies outside the `try/except` that ends with the
header read, so the exception propagates uncaught. -/
theorem c7_propagation_counterexample :
    get_measurement_columns false (.ok ⟨[pys "A"], [[pys "1"]], true⟩) = .error () ∧
    get_measurement_columns false (.ok ⟨[pys "A"], [[pys "1"]], true⟩) ≠ .ok [] :=
  ⟨by decide, by decide⟩

/-- Claim C7 (amended): when opening the file or reading its header fails,
`get_categories`, `get_measurements` and `get_measurement_columns` all
return the empty list instead of propagating, for every object name,
category and setting, and the authoritative load `prepare_run` propagates
the failure.  A parse failure while iterating the data rows, however, is
outside the `try/except` of `get_measurement_columns` and propagates
uncaught from it (while still propagating from `prepare_run`);
`get_categories` and `get_measurements` never read the data rows and return
their ordinary header-derived results on such a file. -/
theorem c7_parse_failure_scope (object_name category : PyStr) (wants_images : Bool)
    (cfg : Config) (assoc : Option Bool) (raw_header : List PyStr) (rows : List Row)
    (hwr : cfg.wants_rows = false) :
    get_categories (.error ()) object_name = [] ∧
    get_measurements (.error ()) object_name category = [] ∧
    get_measurement_columns wants_images (.error ()) = .ok [] ∧
    prepare_run cfg assoc (.error ()) = .error .parseError ∧
    get_measurement_columns wants_images (.ok ⟨raw_header, rows, true⟩) = .error () ∧
    prepare_run cfg assoc (.ok ⟨raw_header, rows, true⟩) = .error .csvError ∧
    get_categories (.ok ⟨raw_header, rows, true⟩) object_name =
      get_categories (.ok ⟨raw_header, rows, false⟩) object_name ∧
    get_measurements (.ok ⟨raw_header, rows, true⟩) object_name category =
      get_measurements (.ok ⟨raw_header, rows, false⟩) object_name category := by
  refine ⟨?_, ?_, rfl, rfl, ?_, ?_, rfl, rfl⟩
  · unfold get_categories
    split <;> rfl
  · unfold get_measurements
    split <;> rfl
  · unfold get_measurement_columns
    dsimp only
    split
    · rfl
    · rfl
  · unfold prepare_run read_rows
    dsimp only
    rw [hwr]
    rfl

/-- Witness for C7 at concrete input: with the row-range restriction off, a
one-column file whose data stream fails mid-iteration makes
`get_measurement_columns` propagate while the introspection results are the
ordinary header-derived ones; a header-read failure yields empty results
everywhere except from `prepare_run`. -/
theorem c7_parse_failure_scope_witness :
    (⟨false, false, 1, 100000, pys "f.csv"⟩ : Config).wants_rows = false ∧
    (get_categories (.error ()) (pys "Image") = [] ∧
    get_measurements (.error ()) (pys "Image") (pys "A") = [] ∧
    get_measurement_columns false (.error ()) = .ok [] ∧
    prepare_run ⟨false, false, 1, 100000, pys "f.csv"⟩ (some true) (.error ()) =
      .error .parseError ∧
    get_measurement_columns false (.ok ⟨[pys "A"], [[pys "1"]], true⟩) = .error () ∧
    prepare_run ⟨false, false, 1, 100000, pys "f.csv"⟩ (some true)
        (.ok ⟨[pys "A"], [[pys "1"]], true⟩) = .error .csvError ∧
    get_categories (.ok ⟨[pys "A"], [[pys "1"]], true⟩) (pys "Image") =
      get_categories (.ok ⟨[pys "A"], [[pys "1"]], false⟩) (pys "Image") ∧
    get_measurements (.ok ⟨[pys "A"], [[pys "1"]], true⟩) (pys "Image") (pys "A") =
      get_measurements (.ok ⟨[pys "A"], [[pys "1"]], false⟩) (pys "Image") (pys "A")) :=
  ⟨rfl,
    c7_parse_failure_scope (pys "Image") (pys "A") false
      ⟨false, false, 1, 100000, pys "f.csv"⟩ (some true) [pys "A"] [[pys "1"]] rfl⟩

/-! ## Claim C10 -/

/-- Claim C10: in `run`, when the image set carries a composite (non-ordinal)
key and no row of the column table matches all of the key's values, no
error is raised: the scan loop runs off the end leaving the loop variable at
the last row, and the last row's values are published as this image set's
measurements. -/
theorem c10_no_match_publishes_last_row (k : PyStr) (v : Value)
    (rest : List (PyStr × Value)) (image_set_number : Nat) (f0 : PyStr) (c0 : Column)
    (ds : List (PyStr × Column))
    (hcomp : 1 < rest.length + 1 ∨ k ≠ pys "number")
    (hn : 0 < col_length c0)
    (hall : ∀ j, j < col_length c0 →
      row_matches ((f0, c0) :: ds) ((k, v) :: rest) j = some false) :
    run_publish ((k, v) :: rest) image_set_number ((f0, c0) :: ds) =
      some (((f0, c0) :: ds).map (fun fc => (fc.1, col_get fc.2 (col_length c0 - 1)))) := by
  unfold run_publish scan_index
  dsimp only
  rw [if_pos hcomp, if_neg (by omega : ¬col_length c0 = 0),
    scan_go_no_match ((f0, c0) :: ds) ((k, v) :: rest) (col_length c0) hall 0 hn]

/-- Witness for C10 at concrete input: a unit keyed `Plate ↦ "P9"` matches
neither row of the "Metadata_Plate" column ["P1","P2"]; the run publishes
the last row's value "P2" without error. -/
theorem c10_no_match_publishes_last_row_witness :
    (1 < ([] : List (PyStr × Value)).length + 1 ∨ pys "Plate" ≠ pys "number") ∧
    0 < col_length (.strs [pys "P1", pys "P2"]) ∧
    (∀ j, j < col_length (.strs [pys "P1", pys "P2"]) →
      row_matches [(pys "Metadata_Plate", .strs [pys "P1", pys "P2"])]
        [(pys "Plate", .str (pys "P9"))] j = some false) ∧
    run_publish [(pys "Plate", .str (pys "P9"))] 5
        [(pys "Metadata_Plate", .strs [pys "P1", pys "P2"])] =
      some [(pys "Metadata_Plate", .str (pys "P2"))] :=
  ⟨by decide, by decide, by decide,
    c10_no_match_publishes_last_row (pys "Plate") (.str (pys "P9")) [] 5
      (pys "Metadata_Plate") (.strs [pys "P1", pys "P2"]) []
      (by decide) (by decide) (by decide)⟩
